import Mathlib

/-!
Verification of the proxmux interactive console bridge.

This file embeds the core of the repository that the claims are about:

* `src/src/utils/terminal.ts` (`connectTerminal`): the WebSocket terminal
  bridge, embedded as an event-driven state machine (`BridgeState`, `Event`,
  `step`) whose observable side effects are recorded as `Action`s;
* the pure error classification in the `ws.on("error")` handler
  (`classifyMessage`);
* `authenticateWithPassword` of the API client (the shape of the fetch
  request it issues, `authenticateRequest`).

JavaScript strings are modelled as lists of UTF-16 code units (`JSString`),
so that the JS `.length` property is simply `List.length`.  Node buffers are
lists of bytes.  `Buffer.toString("utf8")` is modelled by a UTF-8 decoder
producing UTF-16 code units; on well-formed UTF-8 the model is byte-exact,
and malformed sequences are mapped to the replacement character U+FFFD (the
exact count of replacement characters emitted for a malformed run is an
approximation of the Node behaviour; no claim depends on malformed input).
-/

set_option maxRecDepth 100000

namespace Proxmux

/-- A JavaScript string: a list of UTF-16 code units.  The JS `.length`
property of a string is the number of UTF-16 code units, i.e. `List.length`
of this representation. -/
abbrev JSString := List Nat

/-- Embed an ASCII Lean string literal as a `JSString` (one code unit per
character; used only for ASCII literals appearing in the source). -/
def asciiStr (s : String) : JSString := s.data.map Char.toNat

/-- ASCII lowercasing of one UTF-16 code unit.  Models the effect of the JS
`toLowerCase()` on the ASCII range, which is the only range the classifier
patterns live in. -/
def lowerUnit (c : Nat) : Nat := if 65 ≤ c ∧ c ≤ 90 then c + 32 else c

/-- Model of `err.message.toLowerCase()`. -/
def jsToLower (s : JSString) : JSString := s.map lowerUnit

/-- Model of the JS `hay.includes(needle)` substring test. -/
def jsIncludes (hay needle : JSString) : Bool := decide (needle <:+: hay)

/-- Decimal digit characters of `n`, most significant first, as ASCII code
units; fuelled so that the recursion is structural. -/
def natToDecimalAux : Nat → Nat → List Nat
  | 0, _ => []
  | f + 1, n => if n < 10 then [48 + n] else natToDecimalAux f (n / 10) ++ [48 + n % 10]

/-- Model of JS number-to-string coercion for a nonnegative integer, as it
happens in template literals such as the wire frames. -/
def natToDecimal (n : Nat) : List Nat := natToDecimalAux (n + 1) n

/-- Is `b` a UTF-8 continuation byte (`10xxxxxx`)? -/
def isCont (b : Nat) : Bool := decide (0x80 ≤ b) && decide (b < 0xC0)

/-- Decode one UTF-8 sequence: given a lead byte `b` and the remaining
bytes, return the decoded code point and the bytes left over.  Well-formed
sequences decode exactly; a malformed or truncated sequence yields the
replacement character U+FFFD and consumes only the lead byte. -/
def utf8Step (b : Nat) (rest : List Nat) : Nat × List Nat :=
  if b < 0x80 then (b, rest)
  else if b < 0xC0 then (0xFFFD, rest)
  else if b < 0xE0 then
    match rest with
    | b1 :: r1 =>
      if isCont b1 then ((b - 0xC0) * 0x40 + (b1 - 0x80), r1) else (0xFFFD, rest)
    | [] => (0xFFFD, rest)
  else if b < 0xF0 then
    match rest with
    | b1 :: b2 :: r2 =>
      if isCont b1 && isCont b2 then
        ((b - 0xE0) * 0x1000 + (b1 - 0x80) * 0x40 + (b2 - 0x80), r2)
      else (0xFFFD, rest)
    | _ => (0xFFFD, rest)
  else if b < 0xF8 then
    match rest with
    | b1 :: b2 :: b3 :: r3 =>
      if isCont b1 && isCont b2 && isCont b3 then
        ((b - 0xF0) * 0x40000 + (b1 - 0x80) * 0x1000 + (b2 - 0x80) * 0x40 + (b3 - 0x80), r3)
      else (0xFFFD, rest)
    | _ => (0xFFFD, rest)
  else (0xFFFD, rest)

/-- Fuelled driver of the UTF-8 decoder; the fuel only serves to make the
recursion structural and any fuel of at least the byte count gives the same
result. -/
def utf8DecodeAux : Nat → List Nat → List Nat
  | 0, _ => []
  | _ + 1, [] => []
  | f + 1, b :: rest =>
    (utf8Step b rest).1 :: utf8DecodeAux f (utf8Step b rest).2

/-- UTF-8 decoding of a byte list to a list of Unicode code points, as
performed by `Buffer.toString("utf8")`. -/
def utf8Decode (l : List Nat) : List Nat := utf8DecodeAux l.length l

/-- UTF-16 code units of one Unicode code point (surrogate pair for points
above the basic multilingual plane). -/
def utf16Units (c : Nat) : List Nat :=
  if c < 0x10000 then [c]
  else [0xD800 + (c - 0x10000) / 0x400, 0xDC00 + (c - 0x10000) % 0x400]

/-- UTF-16 code units of a list of code points. -/
def utf16OfPoints : List Nat → List Nat
  | [] => []
  | c :: rest => utf16Units c ++ utf16OfPoints rest

/-- Model of `data.toString("utf8")` for a byte buffer: UTF-8 decode, then
view the result as a JS (UTF-16) string. -/
def bufToString (bytes : List Nat) : JSString := utf16OfPoints (utf8Decode bytes)

/-- UTF-8 encoding of one Unicode code point. -/
def utf8EncodeChar (c : Nat) : List Nat :=
  if c < 0x80 then [c]
  else if c < 0x800 then [0xC0 + c / 0x40, 0x80 + c % 0x40]
  else if c < 0x10000 then
    [0xE0 + c / 0x1000, 0x80 + (c / 0x40) % 0x40, 0x80 + c % 0x40]
  else
    [0xF0 + c / 0x40000, 0x80 + (c / 0x1000) % 0x40, 0x80 + (c / 0x40) % 0x40, 0x80 + c % 0x40]

/-- UTF-8 encoding of a list of code points. -/
def utf8EncodeList : List Nat → List Nat
  | [] => []
  | c :: rest => utf8EncodeChar c ++ utf8EncodeList rest

/-- WebSocket ready states (the `ws` constants). -/
inductive ReadyState where
  | CONNECTING
  | OPEN
  | CLOSING
  | CLOSED
deriving DecidableEq

/-- Observable side effects performed by `connectTerminal`.  Terminal escape
sequences written to stdout are recorded structurally: `clearScreen` is the
write of the clear+home sequence, `setTitle t` the title sequence around
`t`, and `resetTitleShowCursor` the write of the reset-title plus
show-cursor sequence done by `cleanup`. -/
inductive Action where
  | wsSend (msg : JSString)
  | wsClose
  | clearTimer
  | setTimer (delayMs : Nat)
  | removeStdinListener
  | attachStdinListener
  | removeResizeListener
  | attachResizeListener
  | setRawMode (enabled : Bool)
  | resumeStdin
  | clearScreen
  | setTitle (t : JSString)
  | resetTitleShowCursor
  | onErrorCb (msg : JSString)
  | rejectP (msg : JSString)
  | resolveP
  | stdoutWrite (data : JSString)
deriving DecidableEq

/-- The outbound data frame built by the input pump:
`"0:" + lenField + ":" + payload` (48 and 58 are the code units of the digit
zero and of the colon).  The length field is kept as an explicit parameter
so that theorems can speak about its value. -/
def dataFrame (lenField : Nat) (payload : JSString) : JSString :=
  [48, 58] ++ natToDecimal lenField ++ [58] ++ payload

/-- The outbound resize frame `"1:" + cols + ":" + rows + ":"` (49 is the
code unit of the digit one). -/
def resizeFrame (cols rows : Nat) : JSString :=
  [49, 58] ++ natToDecimal cols ++ [58] ++ natToDecimal rows ++ [58]

/-- The authentication handshake `user + ":" + ticket + "\n"` (10 is the
newline code unit). -/
def authString (user ticket : JSString) : JSString := user ++ [58] ++ ticket ++ [10]

/-- The terminal title text set on open: the configured title with the exit
hint appended, or the default. -/
def titleText : Option JSString → JSString
  | some t => t ++ asciiStr " - Ctrl+\\ to exit"
  | none => asciiStr "Console - Ctrl+\\ to exit"

/-- The stdin data listener installed on open: forwards a chunk as one data
frame while the socket is OPEN, except that the single byte 0x1C closes the
socket instead; in any other ready state the chunk is dropped. -/
def stdinHandler (readyState : ReadyState) (data : List Nat) : List Action :=
  if readyState = ReadyState.OPEN then
    if data.length = 1 ∧ data.headD 0 = 0x1C then
      [Action.wsClose]
    else
      [Action.wsSend (dataFrame (bufToString data).length (bufToString data))]
  else []

/-- The resize listener installed on open: sends a resize frame with the
current dimensions while the socket is OPEN, else does nothing. -/
def resizeHandler (readyState : ReadyState) (cols rows : Nat) : List Action :=
  if readyState = ReadyState.OPEN then [Action.wsSend (resizeFrame cols rows)] else []

/-- The callback of the settle timer scheduled on open: same body as the
resize listener, reading the dimensions at fire time. -/
def settleHandler (readyState : ReadyState) (cols rows : Nat) : List Action :=
  if readyState = ReadyState.OPEN then [Action.wsSend (resizeFrame cols rows)] else []

/-- The settle delay passed to `setTimeout` in the open handler. -/
def settleDelayMs : Nat := 300

/-- The connect timeout passed to `setTimeout` at connection attempt. -/
def connectTimeoutMs : Nat := 10000

/-- The message of the connect-timeout failure. -/
def timeoutMessage : JSString := asciiStr "Connection timed out after 10 seconds."

/-- The message of the TLS-certificate classification (39 is the apostrophe
code unit). -/
def tlsErrorMessage : JSString :=
  asciiStr "TLS certificate error - your Proxmox server likely uses a self-signed certificate.\n\nTo fix this, re-run "
    ++ [39] ++ asciiStr "proxmux --config" ++ [39]
    ++ asciiStr " and answer " ++ [39] ++ asciiStr "y" ++ [39]
    ++ asciiStr " to skip TLS verification."

/-- The message of the connection-refused classification. -/
def connRefusedMessage : JSString :=
  asciiStr "Connection refused - is Proxmox running at the configured host?"

/-- The TLS/certificate pattern test of the error handler, applied to the
lowercased message. -/
def matchTls (msg : JSString) : Bool :=
  jsIncludes msg (asciiStr "cert") || jsIncludes msg (asciiStr "ssl")
    || jsIncludes msg (asciiStr "tls") || jsIncludes msg (asciiStr "self signed")
    || jsIncludes msg (asciiStr "unable to verify")

/-- The connection-refused pattern test of the error handler, applied to the
lowercased message. -/
def matchRefused (msg : JSString) : Bool :=
  jsIncludes msg (asciiStr "econnrefused") || jsIncludes msg (asciiStr "unreachable")

/-- The message that the `ws.on("error")` handler passes to `handleError`
for a raw error message: the pure error classification. -/
def classifyMessage (raw : JSString) : JSString :=
  let msg := jsToLower raw
  if matchTls msg then tlsErrorMessage
  else if matchRefused msg then connRefusedMessage
  else asciiStr "WebSocket error: " ++ raw

/-- The message of the pre-open close failure, reporting the close code. -/
def closeFailMsg (code : Nat) : JSString :=
  asciiStr "WebSocket failed (code: " ++ natToDecimal code ++ asciiStr ")"

/-- The options passed to the `ws` WebSocket constructor. -/
structure WsClientOptions where
  rejectUnauthorized : Bool
  handshakeTimeout : Nat
deriving DecidableEq

/-- The `wsOptions` value built by `connectTerminal` (headers omitted; they
carry the cookie and origin and play no role in the claims). -/
def wsOptions : WsClientOptions := { rejectUnauthorized := false, handshakeTimeout := 10000 }

/-- The per-session inputs of `connectTerminal` that the state machine reads:
the destructured options plus whether local stdin is a TTY. -/
structure BridgeConfig where
  user : JSString
  ticket : JSString
  title : Option JSString
  isTTY : Bool
  hasOnError : Bool
deriving DecidableEq

/-- The mutable closure state of one `connectTerminal` call.  `timerPending`
means the connect timer is scheduled and not yet cleared or fired
uselessly; `stdinAttached` and `resizeAttached` mean the listeners are
currently attached; `readyState` mirrors the state of the owned socket. -/
structure BridgeState where
  isConnected : Bool
  cleanedUp : Bool
  timerPending : Bool
  stdinAttached : Bool
  resizeAttached : Bool
  readyState : ReadyState
deriving DecidableEq

/-- The state right after the synchronous part of `connectTerminal` ran: the
connect timer is scheduled, no listener is attached, the socket is
connecting. -/
def initState : BridgeState :=
  { isConnected := false
    cleanedUp := false
    timerPending := true
    stdinAttached := false
    resizeAttached := false
    readyState := ReadyState.CONNECTING }

/-- The side effects of one run of `cleanup`: nothing if it already ran,
else clear a scheduled timer, remove attached listeners, leave raw mode if
stdin is a TTY, and reset the title and show the cursor. -/
def cleanupActs (cfg : BridgeConfig) (s : BridgeState) : List Action :=
  if s.cleanedUp then []
  else
    (if s.timerPending then [Action.clearTimer] else [])
      ++ (if s.stdinAttached then [Action.removeStdinListener] else [])
      ++ (if s.resizeAttached then [Action.removeResizeListener] else [])
      ++ (if cfg.isTTY then [Action.setRawMode false] else [])
      ++ [Action.resetTitleShowCursor]

/-- The state after `cleanup`: the guard flag is set and the cleared timer
and removed listeners can no longer fire. -/
def cleanupState (s : BridgeState) : BridgeState :=
  { s with
    cleanedUp := true
    timerPending := false
    stdinAttached := false
    resizeAttached := false }

/-- The side effects of `handleError msg`: run `cleanup`, invoke the
`onError` callback if one was supplied, reject the promise. -/
def handleErrorActs (cfg : BridgeConfig) (s : BridgeState) (msg : JSString) : List Action :=
  cleanupActs cfg s ++ (if cfg.hasOnError then [Action.onErrorCb msg] else [])
    ++ [Action.rejectP msg]

/-- The side effects of the `ws.on("open")` handler, in source order: clear
the pending connect timer, enter raw mode on a TTY, resume stdin, clear the
screen, set the title, send the authentication handshake, attach the stdin
and resize listeners, schedule the settle timer. -/
def openActs (cfg : BridgeConfig) (s : BridgeState) : List Action :=
  (if s.timerPending then [Action.clearTimer] else [])
    ++ (if cfg.isTTY then [Action.setRawMode true] else [])
    ++ [Action.resumeStdin, Action.clearScreen,
        Action.setTitle (titleText cfg.title),
        Action.wsSend (authString cfg.user cfg.ticket),
        Action.attachStdinListener, Action.attachResizeListener,
        Action.setTimer settleDelayMs]

/-- Event sources dispatched to the bridge: socket events, the two timers,
stdin chunks, resize notifications, and a synchronous exception caught by
the surrounding try/catch. -/
inductive Event where
  | wsOpen
  | wsMessage (data : JSString)
  | wsError (message : JSString)
  | wsClosed (code : Nat)
  | connectTimerFired
  | stdinData (data : List Nat)
  | stdoutResize (cols rows : Nat)
  | settleTimerFired (cols rows : Nat)
  | thrown (message : JSString)
deriving DecidableEq

/-- One dispatch of an event, returning the successor state and the emitted
side effects.  This is the shallow embedding of the bodies of the
`ws.on(...)` handlers, the timer callbacks, and the stdin and resize
listeners of `connectTerminal`. -/
def step (cfg : BridgeConfig) (s : BridgeState) : Event → BridgeState × List Action
  | Event.wsOpen =>
    ({ s with
       isConnected := true
       timerPending := false
       stdinAttached := true
       resizeAttached := true
       readyState := ReadyState.OPEN },
     openActs cfg s)
  | Event.wsMessage d => (s, [Action.stdoutWrite d])
  | Event.wsError m => (cleanupState s, handleErrorActs cfg s (classifyMessage m))
  | Event.wsClosed code =>
    if s.isConnected then
      ({ cleanupState s with readyState := ReadyState.CLOSED },
       cleanupActs cfg s ++ [Action.resolveP])
    else
      ({ cleanupState s with readyState := ReadyState.CLOSED },
       handleErrorActs cfg s (closeFailMsg code))
  | Event.connectTimerFired =>
    if s.isConnected then (s, [])
    else (cleanupState s, handleErrorActs cfg s timeoutMessage)
  | Event.stdinData data =>
    if s.stdinAttached then
      let acts := stdinHandler s.readyState data
      ({ s with readyState :=
          if Action.wsClose ∈ acts then ReadyState.CLOSING else s.readyState },
       acts)
    else (s, [])
  | Event.stdoutResize cols rows =>
    if s.resizeAttached then (s, resizeHandler s.readyState cols rows) else (s, [])
  | Event.settleTimerFired cols rows => (s, settleHandler s.readyState cols rows)
  | Event.thrown m => (cleanupState s, handleErrorActs cfg s m)

/-- The actions emitted by one event dispatch. -/
def stepActs (cfg : BridgeConfig) (s : BridgeState) (e : Event) : List Action :=
  (step cfg s e).2

/-- Run the bridge over a sequence of events, concatenating the emitted
actions. -/
def runBridge (cfg : BridgeConfig) : BridgeState → List Event → BridgeState × List Action
  | s, [] => (s, [])
  | s, e :: es =>
    let p := step cfg s e
    let q := runBridge cfg p.1 es
    (q.1, p.2 ++ q.2)

/-- Does the action send a WebSocket message? -/
def isWsSendB : Action → Bool
  | Action.wsSend _ => true
  | _ => false

/-- Does the action attach the stdin listener? -/
def isAttachStdinB : Action → Bool
  | Action.attachStdinListener => true
  | _ => false

/-- Does the action send a message whose first code unit is the digit one,
i.e. a resize frame? -/
def sendsResizeFrame : Action → Bool
  | Action.wsSend m => m.headD 0 = 49
  | _ => false

/-- Does the action clear the connect timer? -/
def isClearTimerB : Action → Bool
  | Action.clearTimer => true
  | _ => false

/-- Does the action remove the stdin listener? -/
def isRemoveStdinB : Action → Bool
  | Action.removeStdinListener => true
  | _ => false

/-- Does the action remove the resize listener? -/
def isRemoveResizeB : Action → Bool
  | Action.removeResizeListener => true
  | _ => false

/-- Does the action restore cooked (non-raw) terminal mode? -/
def isRawRestoreB : Action → Bool
  | Action.setRawMode b => !b
  | _ => false

/-- Does the action reset the terminal title and show the cursor? -/
def isTitleResetB : Action → Bool
  | Action.resetTitleShowCursor => true
  | _ => false

/-- The shape of the fetch request issued by `authenticateWithPassword`:
URL, method, the `URLSearchParams` entries sent as the form-encoded body,
and the `tls.rejectUnauthorized` option of the request. -/
structure FetchRequest where
  url : JSString
  httpMethod : JSString
  formBody : List (JSString × JSString)
  tlsRejectUnauthorized : Bool
deriving DecidableEq

/-- The path of the ticket endpoint, appended to the base URL. -/
def accessTicketPath : JSString := asciiStr "/api2/json/access/ticket"

/-- The request built by `authenticateWithPassword`: a form-encoded POST of
username and password to the ticket endpoint, with certificate verification
disabled by a hardcoded `tls.rejectUnauthorized: false`. -/
def authenticateRequest (baseUrl user password : JSString) : FetchRequest :=
  { url := baseUrl ++ accessTicketPath
    httpMethod := asciiStr "POST"
    formBody := [(asciiStr "username", user), (asciiStr "password", password)]
    tlsRejectUnauthorized := false }

/-- Modelled from the spec: the `skipTlsVerify` configuration flag (the
config module version defining it is not part of the snapshot; only its
callers are).  The spec says certificate validation is controlled by this
flag with verification enabled unless the user configured skipping, so the
`rejectUnauthorized` value the spec prescribes for the request is the
negation of the flag. -/
def spec_rejectUnauthorized (skipTlsVerify : Bool) : Bool := !skipTlsVerify

/-- Modelled from the spec: the default of the `skipTlsVerify` flag is off
(verify-on); an absent flag counts as not skipping. -/
def spec_skipTlsVerifyDefault : Bool := false

/-- A concrete session configuration used by witnesses and counterexamples. -/
def cfgEx : BridgeConfig :=
  { user := asciiStr "root@pam"
    ticket := asciiStr "PVEVNC-TICKET"
    title := none
    isTTY := true
    hasOnError := false }

/-- Is the action one of the four side effects that only the cleanup
routine performs: removing either listener, restoring cooked mode, or
resetting the title and cursor? -/
def isCleanupKind (a : Action) : Bool :=
  isRemoveStdinB a || isRemoveResizeB a || isRawRestoreB a || isTitleResetB a

lemma stepActs_eq (cfg : BridgeConfig) (s : BridgeState) (e : Event) :
    (step cfg s e).2 = stepActs cfg s e := rfl

lemma stepActs_cases (cfg : BridgeConfig) (s : BridgeState) (e : Event) :
    (∃ tail, stepActs cfg s e = cleanupActs cfg s ++ tail ∧
      tail.countP isCleanupKind = 0 ∧ (step cfg s e).1.cleanedUp = true) ∨
    ((stepActs cfg s e).countP isCleanupKind = 0 ∧
      (step cfg s e).1.cleanedUp = s.cleanedUp) := by
  cases e with
  | wsOpen =>
    right
    constructor
    · show (openActs cfg s).countP isCleanupKind = 0
      rw [openActs]
      split_ifs <;> rfl
    · rfl
  | wsMessage d => right; exact ⟨rfl, rfl⟩
  | wsError m =>
    left
    refine ⟨(if cfg.hasOnError then [Action.onErrorCb (classifyMessage m)] else [])
      ++ [Action.rejectP (classifyMessage m)], ?_, ?_, rfl⟩
    · show handleErrorActs cfg s (classifyMessage m) = _
      rw [handleErrorActs, List.append_assoc]
    · split_ifs <;> rfl
  | wsClosed code =>
    left
    by_cases h : s.isConnected
    · refine ⟨[Action.resolveP], ?_, rfl, ?_⟩
      · show (step cfg s (Event.wsClosed code)).2 = _
        rw [step, if_pos h]
      · rw [step, if_pos h]
        rfl
    · refine ⟨(if cfg.hasOnError then [Action.onErrorCb (closeFailMsg code)] else [])
        ++ [Action.rejectP (closeFailMsg code)], ?_, ?_, ?_⟩
      · show (step cfg s (Event.wsClosed code)).2 = _
        rw [step, if_neg h, handleErrorActs, List.append_assoc]
      · split_ifs <;> rfl
      · rw [step, if_neg h]
        rfl
  | connectTimerFired =>
    by_cases h : s.isConnected
    · right
      constructor
      · show ((step cfg s Event.connectTimerFired).2).countP isCleanupKind = 0
        rw [step, if_pos h]
        rfl
      · rw [step, if_pos h]
    · left
      refine ⟨(if cfg.hasOnError then [Action.onErrorCb timeoutMessage] else [])
        ++ [Action.rejectP timeoutMessage], ?_, ?_, ?_⟩
      · show (step cfg s Event.connectTimerFired).2 = _
        rw [step, if_neg h, handleErrorActs, List.append_assoc]
      · split_ifs <;> rfl
      · rw [step, if_neg h]
        rfl
  | stdinData data =>
    right
    by_cases h : s.stdinAttached
    · constructor
      · show ((step cfg s (Event.stdinData data)).2).countP isCleanupKind = 0
        rw [step, if_pos h]
        show (stdinHandler s.readyState data).countP isCleanupKind = 0
        rw [stdinHandler]
        split_ifs <;> rfl
      · rw [step, if_pos h]
    · constructor
      · show ((step cfg s (Event.stdinData data)).2).countP isCleanupKind = 0
        rw [step, if_neg h]
        rfl
      · rw [step, if_neg h]
  | stdoutResize cols rows =>
    right
    by_cases h : s.resizeAttached
    · constructor
      · show ((step cfg s (Event.stdoutResize cols rows)).2).countP isCleanupKind = 0
        rw [step, if_pos h]
        show (resizeHandler s.readyState cols rows).countP isCleanupKind = 0
        rw [resizeHandler]
        split_ifs <;> rfl
      · rw [step, if_pos h]
    · constructor
      · show ((step cfg s (Event.stdoutResize cols rows)).2).countP isCleanupKind = 0
        rw [step, if_neg h]
        rfl
      · rw [step, if_neg h]
  | settleTimerFired cols rows =>
    right
    constructor
    · show (settleHandler s.readyState cols rows).countP isCleanupKind = 0
      rw [settleHandler]
      split_ifs <;> rfl
    · rfl
  | thrown m =>
    left
    refine ⟨(if cfg.hasOnError then [Action.onErrorCb m] else []) ++ [Action.rejectP m],
      ?_, ?_, rfl⟩
    · show handleErrorActs cfg s m = _
      rw [handleErrorActs, List.append_assoc]
    · split_ifs <;> rfl

lemma runBridge_countP_zero (cfg : BridgeConfig) (F : BridgeState → Bool) (p : Action → Bool)
    (h0 : ∀ s e, F s = true → (stepActs cfg s e).countP p = 0)
    (h1 : ∀ s e, F s = true → F (step cfg s e).1 = true) :
    ∀ (es : List Event) (s : BridgeState), F s = true →
      ((runBridge cfg s es).2).countP p = 0 := by
  intro es
  induction es with
  | nil => intro s _; rfl
  | cons e es ih =>
    intro s hF
    show ((runBridge cfg s (e :: es)).2).countP p = 0
    rw [runBridge]
    simp only [List.countP_append, stepActs_eq]
    rw [h0 s e hF, ih (step cfg s e).1 (h1 s e hF)]

lemma runBridge_countP_le_one (cfg : BridgeConfig) (F : BridgeState → Bool) (p : Action → Bool)
    (h0 : ∀ s e, F s = true → (stepActs cfg s e).countP p = 0)
    (h1 : ∀ s e, F s = true → F (step cfg s e).1 = true)
    (h2 : ∀ s e, (stepActs cfg s e).countP p ≤ 1)
    (h3 : ∀ s e, 1 ≤ (stepActs cfg s e).countP p → F (step cfg s e).1 = true) :
    ∀ (es : List Event) (s : BridgeState), ((runBridge cfg s es).2).countP p ≤ 1 := by
  intro es
  induction es with
  | nil => intro s; simp [runBridge]
  | cons e es ih =>
    intro s
    show ((runBridge cfg s (e :: es)).2).countP p ≤ 1
    rw [runBridge]
    simp only [List.countP_append, stepActs_eq]
    by_cases hF : F (step cfg s e).1 = true
    · rw [runBridge_countP_zero cfg F p h0 h1 es (step cfg s e).1 hF]
      simpa using h2 s e
    · have hz : (stepActs cfg s e).countP p = 0 := by
        by_contra hnz
        exact hF (h3 s e (by omega))
      rw [hz]
      simpa using ih (step cfg s e).1

lemma cleanup_effect_at_most_once (cfg : BridgeConfig) (p : Action → Bool)
    (hmono : ∀ a, p a = true → isCleanupKind a = true)
    (hcl : ∀ s, (cleanupActs cfg s).countP p ≤ 1) :
    ∀ (es : List Event) (s : BridgeState), ((runBridge cfg s es).2).countP p ≤ 1 := by
  have hzero : ∀ (l : List Action), l.countP isCleanupKind = 0 → l.countP p = 0 := by
    intro l hl
    refine List.countP_eq_zero.mpr (fun a ha hpa => ?_)
    exact (List.countP_eq_zero.mp hl a ha) (hmono a hpa)
  refine runBridge_countP_le_one cfg (fun s => s.cleanedUp) p ?_ ?_ ?_ ?_
  · intro s e h
    rcases stepActs_cases cfg s e with ⟨tail, heq, htail, _⟩ | ⟨hz, _⟩
    · rw [heq, List.countP_append]
      have hce : cleanupActs cfg s = [] := by
        rw [cleanupActs, if_pos h]
      rw [hce, hzero tail htail]
      rfl
    · exact hzero _ hz
  · intro s e h
    rcases stepActs_cases cfg s e with ⟨_, _, _, hc⟩ | ⟨_, hc⟩
    · exact hc
    · show (step cfg s e).1.cleanedUp = true
      rw [hc]
      exact h
  · intro s e
    rcases stepActs_cases cfg s e with ⟨tail, heq, htail, _⟩ | ⟨hz, _⟩
    · rw [heq, List.countP_append, hzero tail htail]
      have := hcl s
      omega
    · rw [hzero _ hz]
      omega
  · intro s e hcount
    rcases stepActs_cases cfg s e with ⟨_, _, _, hc⟩ | ⟨hz, hc⟩
    · exact hc
    · rw [hzero _ hz] at hcount
      omega

lemma removeStdin_at_most_once (cfg : BridgeConfig) :
    ∀ (es : List Event) (s : BridgeState),
      ((runBridge cfg s es).2).countP isRemoveStdinB ≤ 1 := by
  refine cleanup_effect_at_most_once cfg isRemoveStdinB ?_ ?_
  · intro a ha
    simp [isCleanupKind, ha]
  · intro s
    rw [cleanupActs]
    split_ifs <;> decide

lemma removeResize_at_most_once (cfg : BridgeConfig) :
    ∀ (es : List Event) (s : BridgeState),
      ((runBridge cfg s es).2).countP isRemoveResizeB ≤ 1 := by
  refine cleanup_effect_at_most_once cfg isRemoveResizeB ?_ ?_
  · intro a ha
    simp [isCleanupKind, ha]
  · intro s
    rw [cleanupActs]
    split_ifs <;> decide

lemma rawRestore_at_most_once (cfg : BridgeConfig) :
    ∀ (es : List Event) (s : BridgeState),
      ((runBridge cfg s es).2).countP isRawRestoreB ≤ 1 := by
  refine cleanup_effect_at_most_once cfg isRawRestoreB ?_ ?_
  · intro a ha
    simp [isCleanupKind, ha]
  · intro s
    rw [cleanupActs]
    split_ifs <;> decide

lemma titleReset_at_most_once (cfg : BridgeConfig) :
    ∀ (es : List Event) (s : BridgeState),
      ((runBridge cfg s es).2).countP isTitleResetB ≤ 1 := by
  refine cleanup_effect_at_most_once cfg isTitleResetB ?_ ?_
  · intro a ha
    simp [isCleanupKind, ha]
  · intro s
    rw [cleanupActs]
    split_ifs <;> decide

lemma utf8DecodeAux_fuel :
    ∀ (f g : Nat) (l : List Nat), l.length ≤ f → l.length ≤ g →
      utf8DecodeAux f l = utf8DecodeAux g l := by
  intro f
  induction f with
  | zero =>
    intro g l hf _
    have : l = [] := List.length_eq_zero.mp (Nat.le_zero.mp hf)
    subst this
    cases g <;> rfl
  | succ f ih =>
    intro g l hf hg
    cases l with
    | nil => cases g <;> rfl
    | cons b rest =>
      cases g with
      | zero => simp at hg
      | succ g =>
        have hr : (utf8Step b rest).2.length ≤ rest.length := by
          unfold utf8Step
          repeat' split
          all_goals simp_all
          all_goals omega
        simp only [utf8DecodeAux]
        congr 1
        apply ih
        · exact le_trans hr (by simpa using hf)
        · exact le_trans hr (by simpa using hg)

lemma utf8Step_encodeChar (c : Nat) (h : c < 0x110000) (tail : List Nat) :
    ∃ b bs, utf8EncodeChar c = b :: bs ∧ utf8Step b (bs ++ tail) = (c, tail) := by
  by_cases h1 : c < 0x80
  · refine ⟨c, [], by simp [utf8EncodeChar, h1], ?_⟩
    simp only [utf8Step, List.nil_append]
    rw [if_pos h1]
  · by_cases h2 : c < 0x800
    · refine ⟨0xC0 + c / 0x40, [0x80 + c % 0x40], by simp [utf8EncodeChar, h1, h2], ?_⟩
      simp only [utf8Step, List.cons_append, List.nil_append]
      rw [if_neg (by omega), if_neg (by omega), if_pos (by omega)]
      simp only [isCont, Bool.and_eq_true, decide_eq_true_eq]
      rw [if_pos (by constructor <;> omega)]
      refine Prod.ext ?_ rfl
      simp
      omega
    · by_cases h3 : c < 0x10000
      · refine ⟨0xE0 + c / 0x1000, [0x80 + (c / 0x40) % 0x40, 0x80 + c % 0x40],
          by simp [utf8EncodeChar, h1, h2, h3], ?_⟩
        simp only [utf8Step, List.cons_append, List.nil_append]
        rw [if_neg (by omega), if_neg (by omega), if_neg (by omega), if_pos (by omega)]
        simp only [isCont, Bool.and_eq_true, decide_eq_true_eq]
        rw [if_pos (by refine ⟨⟨?_, ?_⟩, ?_, ?_⟩ <;> omega)]
        refine Prod.ext ?_ rfl
        simp
        omega
      · refine ⟨0xF0 + c / 0x40000,
          [0x80 + (c / 0x1000) % 0x40, 0x80 + (c / 0x40) % 0x40, 0x80 + c % 0x40],
          by simp [utf8EncodeChar, h1, h2, h3], ?_⟩
        simp only [utf8Step, List.cons_append, List.nil_append]
        rw [if_neg (by omega), if_neg (by omega), if_neg (by omega), if_neg (by omega),
          if_pos (by omega)]
        simp only [isCont, Bool.and_eq_true, decide_eq_true_eq]
        rw [if_pos (by refine ⟨⟨⟨?_, ?_⟩, ?_, ?_⟩, ?_, ?_⟩ <;> omega)]
        refine Prod.ext ?_ rfl
        simp
        omega

lemma utf8Decode_encodeChar_append (c : Nat) (h : c < 0x110000) (tail : List Nat) :
    utf8Decode (utf8EncodeChar c ++ tail) = c :: utf8Decode tail := by
  obtain ⟨b, bs, he, hs⟩ := utf8Step_encodeChar c h tail
  rw [utf8Decode, he, List.cons_append]
  simp only [List.length_cons]
  rw [utf8DecodeAux, hs]
  rw [utf8Decode]
  congr 1
  exact utf8DecodeAux_fuel _ _ tail (by simp) le_rfl

lemma utf8Decode_utf8EncodeList (cps : List Nat) (h : ∀ c ∈ cps, c < 0x110000) :
    utf8Decode (utf8EncodeList cps) = cps := by
  induction cps with
  | nil => rfl
  | cons c rest ih =>
    rw [utf8EncodeList, utf8Decode_encodeChar_append c (h c (List.mem_cons_self c rest)),
      ih (fun x hx => h x (List.mem_cons_of_mem c hx))]


lemma utf16Units_length (c : Nat) :
    (utf16Units c).length = if c < 0x10000 then 1 else 2 := by
  unfold utf16Units
  split <;> rfl

lemma utf8EncodeChar_length (c : Nat) :
    (utf8EncodeChar c).length
      = if c < 0x80 then 1 else if c < 0x800 then 2 else if c < 0x10000 then 3 else 4 := by
  unfold utf8EncodeChar
  split_ifs <;> rfl

lemma utf8EncodeChar_length_pos (c : Nat) : 1 ≤ (utf8EncodeChar c).length := by
  rw [utf8EncodeChar_length]
  split_ifs <;> omega

lemma utf16OfPoints_length_le (cps : List Nat) :
    (utf16OfPoints cps).length ≤ (utf8EncodeList cps).length := by
  induction cps with
  | nil => simp [utf16OfPoints, utf8EncodeList]
  | cons c rest ih =>
    rw [utf16OfPoints, utf8EncodeList, List.length_append, List.length_append]
    have h1 := utf16Units_length c
    have h2 := utf8EncodeChar_length c
    split_ifs at h1 h2 <;> omega

lemma utf16OfPoints_length_lt (cps : List Nat) (h : ∃ c ∈ cps, 0x80 ≤ c) :
    (utf16OfPoints cps).length < (utf8EncodeList cps).length := by
  induction cps with
  | nil => simp at h
  | cons c rest ih =>
    rw [utf16OfPoints, utf8EncodeList, List.length_append, List.length_append]
    have h1 := utf16Units_length c
    have h2 := utf8EncodeChar_length c
    rcases h with ⟨d, hd, hd80⟩
    rcases List.mem_cons.mp hd with rfl | hdr
    · have := utf16OfPoints_length_le rest
      split_ifs at h1 h2 <;> omega
    · have := ih ⟨d, hdr, hd80⟩
      split_ifs at h1 h2 <;> omega

lemma utf16OfPoints_length_bmp (cps : List Nat) (h : ∀ c ∈ cps, c < 0x10000) :
    (utf16OfPoints cps).length = cps.length := by
  induction cps with
  | nil => rfl
  | cons c rest ih =>
    rw [utf16OfPoints, List.length_append, List.length_cons,
      ih (fun x hx => h x (List.mem_cons_of_mem c hx))]
    have h1 := utf16Units_length c
    rw [if_pos (h c (List.mem_cons_self c rest))] at h1
    omega

lemma utf8EncodeList_detach (cps : List Nat) (h1 : (utf8EncodeList cps).length = 1)
    (h2 : (utf8EncodeList cps).headD 0 = 0x1C) : cps = [0x1C] := by
  cases cps with
  | nil => simp [utf8EncodeList] at h1
  | cons c rest =>
    rw [utf8EncodeList] at h1 h2
    rw [List.length_append] at h1
    have hc := utf8EncodeChar_length_pos c
    have hrest : rest = [] := by
      cases rest with
      | nil => rfl
      | cons d ds =>
        rw [utf8EncodeList, List.length_append] at h1
        have := utf8EncodeChar_length_pos d
        omega
    subst hrest
    have hc80 : c < 0x80 := by
      by_contra hno
      rw [utf8EncodeChar_length] at hc h1
      split_ifs at h1 <;> omega
    have hch : utf8EncodeChar c = [c] := by simp [utf8EncodeChar, hc80]
    rw [hch] at h2
    simp [utf8EncodeList] at h2
    simp [h2]

lemma singleton_detach (data : List Nat) (h1 : data.length = 1)
    (h2 : data.headD 0 = 0x1C) : data = [0x1C] := by
  cases data with
  | nil => simp at h1
  | cons b rest =>
    simp at h1 h2
    simp [h1, h2]

/-- Claim C5: a stdin chunk that is exactly the single byte 0x1C makes the
input pump close the socket and emit no data frame; every other chunk is
forwarded as exactly one data frame (while the socket is OPEN). -/
theorem claim_C5 :
    stdinHandler ReadyState.OPEN [0x1C] = [Action.wsClose] ∧
    ∀ data : List Nat, data ≠ [0x1C] →
      stdinHandler ReadyState.OPEN data
        = [Action.wsSend (dataFrame (bufToString data).length (bufToString data))] := by
  constructor
  · decide
  · intro data hne
    rw [stdinHandler, if_pos rfl, if_neg]
    rintro ⟨h1, h2⟩
    exact hne (singleton_detach data h1 h2)

theorem claim_C5_witness :
    ([0x61] : List Nat) ≠ [0x1C] ∧
      stdinHandler ReadyState.OPEN [0x61]
        = [Action.wsSend (dataFrame (bufToString [0x61]).length (bufToString [0x61]))] :=
  ⟨by decide, claim_C5.2 [0x61] (by decide)⟩

/-- Claim C1 (counterexample): for the stdin chunk 0xC3 0xA9 (two UTF-8
bytes encoding one character, U+00E9), the emitted data frame carries the
length field 1 (the JS string length), not the UTF-8 byte count 2 that the
claim asserts; the two frames differ. -/
theorem claim_C1_counterexample :
    stdinHandler ReadyState.OPEN [0xC3, 0xA9] = [Action.wsSend (dataFrame 1 [0xE9])] ∧
    (utf8EncodeList [0xE9]).length = 2 ∧
    dataFrame 1 [0xE9] ≠ dataFrame 2 [0xE9] := by
  decide

/-- Claim C1 (amended): for a chunk that is the UTF-8 encoding of a valid
code-point sequence and is not the detach byte, the input pump emits exactly
one data frame whose length field is the UTF-16 code-unit count of the
decoded payload (the JS string length); that count never exceeds the UTF-8
byte count, is strictly below it whenever a character outside ASCII occurs
(the M < N case of the claim), and equals the character count when all
characters are in the basic multilingual plane. -/
theorem claim_C1_amended (cps : List Nat)
    (hval : ∀ c ∈ cps, c < 0x110000 ∧ ¬(0xD800 ≤ c ∧ c < 0xE000))
    (hne : cps ≠ [0x1C]) :
    stdinHandler ReadyState.OPEN (utf8EncodeList cps)
      = [Action.wsSend (dataFrame (utf16OfPoints cps).length (utf16OfPoints cps))] ∧
    (utf16OfPoints cps).length ≤ (utf8EncodeList cps).length ∧
    ((∃ c ∈ cps, 0x80 ≤ c) → (utf16OfPoints cps).length < (utf8EncodeList cps).length) ∧
    ((∀ c ∈ cps, c < 0x10000) → (utf16OfPoints cps).length = cps.length) := by
  have hbuf : bufToString (utf8EncodeList cps) = utf16OfPoints cps := by
    rw [bufToString, utf8Decode_utf8EncodeList cps (fun c hc => (hval c hc).1)]
  refine ⟨?_, utf16OfPoints_length_le cps, utf16OfPoints_length_lt cps,
    utf16OfPoints_length_bmp cps⟩
  rw [stdinHandler, if_pos rfl, if_neg, hbuf]
  rintro ⟨h1, h2⟩
  exact hne (utf8EncodeList_detach cps h1 h2)

theorem claim_C1_witness :
    (∀ c ∈ ([0x61, 0xE9] : List Nat), c < 0x110000 ∧ ¬(0xD800 ≤ c ∧ c < 0xE000)) ∧
    ([0x61, 0xE9] : List Nat) ≠ [0x1C] ∧
    (stdinHandler ReadyState.OPEN (utf8EncodeList [0x61, 0xE9])
        = [Action.wsSend (dataFrame (utf16OfPoints [0x61, 0xE9]).length
            (utf16OfPoints [0x61, 0xE9]))] ∧
      (utf16OfPoints [0x61, 0xE9]).length ≤ (utf8EncodeList [0x61, 0xE9]).length ∧
      ((∃ c ∈ ([0x61, 0xE9] : List Nat), 0x80 ≤ c) →
        (utf16OfPoints [0x61, 0xE9]).length < (utf8EncodeList [0x61, 0xE9]).length) ∧
      ((∀ c ∈ ([0x61, 0xE9] : List Nat), c < 0x10000) →
        (utf16OfPoints [0x61, 0xE9]).length = ([0x61, 0xE9] : List Nat).length)) :=
  ⟨by decide, by decide, claim_C1_amended [0x61, 0xE9] (by decide) (by decide)⟩

/-- Claim C10: an outbound frame is sent only while the socket is OPEN; a
stdin chunk, a resize event or the settle timer in any other ready state is
silently discarded, and at the step level the event emits nothing and
leaves the bridge state unchanged. -/
theorem claim_C10 (rs : ReadyState) (hrs : rs ≠ ReadyState.OPEN) :
    (∀ data : List Nat, stdinHandler rs data = []) ∧
    (∀ cols rows : Nat, resizeHandler rs cols rows = []) ∧
    (∀ cols rows : Nat, settleHandler rs cols rows = []) ∧
    (∀ (cfg : BridgeConfig) (s : BridgeState), s.readyState = rs →
      (∀ data, step cfg s (Event.stdinData data) = (s, [])) ∧
      (∀ cols rows, step cfg s (Event.stdoutResize cols rows) = (s, [])) ∧
      (∀ cols rows, step cfg s (Event.settleTimerFired cols rows) = (s, []))) := by
  have hstdin : ∀ data : List Nat, stdinHandler rs data = [] := by
    intro data
    rw [stdinHandler, if_neg hrs]
  have hresize : ∀ cols rows : Nat, resizeHandler rs cols rows = [] := by
    intro cols rows
    rw [resizeHandler, if_neg hrs]
  have hsettle : ∀ cols rows : Nat, settleHandler rs cols rows = [] := by
    intro cols rows
    rw [settleHandler, if_neg hrs]
  refine ⟨hstdin, hresize, hsettle, ?_⟩
  rintro cfg s rfl
  refine ⟨?_, ?_, ?_⟩
  · intro data
    rw [step]
    split
    · simp [hstdin]
    · rfl
  · intro cols rows
    rw [step]
    split
    · rw [hresize]
    · rfl
  · intro cols rows
    rw [step]
    rw [hsettle]

theorem claim_C10_witness :
    ReadyState.CLOSING ≠ ReadyState.OPEN ∧
    stdinHandler ReadyState.CLOSING [0x61] = [] ∧
    resizeHandler ReadyState.CLOSING 80 24 = [] ∧
    settleHandler ReadyState.CLOSING 80 24 = [] :=
  ⟨by decide, (claim_C10 ReadyState.CLOSING (by decide)).1 [0x61],
    (claim_C10 ReadyState.CLOSING (by decide)).2.1 80 24,
    (claim_C10 ReadyState.CLOSING (by decide)).2.2.1 80 24⟩

lemma countP_cleanupActs_clearTimer (cfg : BridgeConfig) (s : BridgeState) :
    (cleanupActs cfg s).countP isClearTimerB
      = if s.cleanedUp then 0 else if s.timerPending then 1 else 0 := by
  rw [cleanupActs]
  split_ifs <;> rfl

lemma countP_openActs_clearTimer (cfg : BridgeConfig) (s : BridgeState) :
    (openActs cfg s).countP isClearTimerB = if s.timerPending then 1 else 0 := by
  rw [openActs]
  split_ifs <;> rfl

lemma countP_handleErrorActs_clearTimer (cfg : BridgeConfig) (s : BridgeState) (m : JSString) :
    (handleErrorActs cfg s m).countP isClearTimerB
      = (cleanupActs cfg s).countP isClearTimerB := by
  rw [handleErrorActs]
  simp only [List.countP_append]
  split_ifs <;> simp [isClearTimerB, List.countP_cons, List.countP_nil]

lemma countP_stdinHandler_clearTimer (rs : ReadyState) (d : List Nat) :
    (stdinHandler rs d).countP isClearTimerB = 0 := by
  rw [stdinHandler]
  split_ifs <;> rfl

lemma countP_resizeHandler_clearTimer (rs : ReadyState) (c r : Nat) :
    (resizeHandler rs c r).countP isClearTimerB = 0 := by
  rw [resizeHandler]
  split_ifs <;> rfl

lemma countP_settleHandler_clearTimer (rs : ReadyState) (c r : Nat) :
    (settleHandler rs c r).countP isClearTimerB = 0 := by
  rw [settleHandler]
  split_ifs <;> rfl

lemma cleanupActs_clearTimer_le (cfg : BridgeConfig) (s : BridgeState) :
    (cleanupActs cfg s).countP isClearTimerB ≤ if s.timerPending then 1 else 0 := by
  rw [countP_cleanupActs_clearTimer]
  split_ifs <;> omega

lemma stepActs_clearTimer_cases (cfg : BridgeConfig) (s : BridgeState) (e : Event) :
    ((stepActs cfg s e).countP isClearTimerB = 0 ∧
      (step cfg s e).1.timerPending = s.timerPending) ∨
    ((stepActs cfg s e).countP isClearTimerB ≤ (if s.timerPending then 1 else 0) ∧
      (step cfg s e).1.timerPending = false) := by
  cases e with
  | wsOpen =>
    right
    constructor
    · show (openActs cfg s).countP isClearTimerB ≤ _
      rw [countP_openActs_clearTimer]
    · rfl
  | wsMessage d => left; exact ⟨rfl, rfl⟩
  | wsError m =>
    right
    constructor
    · show (handleErrorActs cfg s (classifyMessage m)).countP isClearTimerB ≤ _
      rw [countP_handleErrorActs_clearTimer]
      exact cleanupActs_clearTimer_le cfg s
    · rfl
  | wsClosed code =>
    right
    by_cases h : s.isConnected
    · constructor
      · show ((step cfg s (Event.wsClosed code)).2).countP isClearTimerB ≤ _
        rw [step, if_pos h]
        show (cleanupActs cfg s ++ [Action.resolveP]).countP isClearTimerB ≤ _
        rw [List.countP_append]
        have := cleanupActs_clearTimer_le cfg s
        have h2 : ([Action.resolveP] : List Action).countP isClearTimerB = 0 := rfl
        omega
      · rw [step, if_pos h]
        rfl
    · constructor
      · show ((step cfg s (Event.wsClosed code)).2).countP isClearTimerB ≤ _
        rw [step, if_neg h]
        show (handleErrorActs cfg s (closeFailMsg code)).countP isClearTimerB ≤ _
        rw [countP_handleErrorActs_clearTimer]
        exact cleanupActs_clearTimer_le cfg s
      · rw [step, if_neg h]
        rfl
  | connectTimerFired =>
    by_cases h : s.isConnected
    · left
      constructor
      · show ((step cfg s Event.connectTimerFired).2).countP isClearTimerB = 0
        rw [step, if_pos h]
        rfl
      · rw [step, if_pos h]
    · right
      constructor
      · show ((step cfg s Event.connectTimerFired).2).countP isClearTimerB ≤ _
        rw [step, if_neg h]
        show (handleErrorActs cfg s timeoutMessage).countP isClearTimerB ≤ _
        rw [countP_handleErrorActs_clearTimer]
        exact cleanupActs_clearTimer_le cfg s
      · rw [step, if_neg h]
        rfl
  | stdinData data =>
    left
    by_cases h : s.stdinAttached
    · constructor
      · show ((step cfg s (Event.stdinData data)).2).countP isClearTimerB = 0
        rw [step, if_pos h]
        exact countP_stdinHandler_clearTimer _ _
      · rw [step, if_pos h]
    · constructor
      · show ((step cfg s (Event.stdinData data)).2).countP isClearTimerB = 0
        rw [step, if_neg h]
        rfl
      · rw [step, if_neg h]
  | stdoutResize cols rows =>
    left
    by_cases h : s.resizeAttached
    · constructor
      · show ((step cfg s (Event.stdoutResize cols rows)).2).countP isClearTimerB = 0
        rw [step, if_pos h]
        exact countP_resizeHandler_clearTimer _ _ _
      · rw [step, if_pos h]
    · constructor
      · show ((step cfg s (Event.stdoutResize cols rows)).2).countP isClearTimerB = 0
        rw [step, if_neg h]
        rfl
      · rw [step, if_neg h]
  | settleTimerFired cols rows =>
    left
    exact ⟨countP_settleHandler_clearTimer _ _ _, rfl⟩
  | thrown m =>
    right
    constructor
    · show (handleErrorActs cfg s m).countP isClearTimerB ≤ _
      rw [countP_handleErrorActs_clearTimer]
      exact cleanupActs_clearTimer_le cfg s
    · rfl

lemma clearTimer_at_most_once (cfg : BridgeConfig) :
    ∀ (es : List Event) (s : BridgeState),
      ((runBridge cfg s es).2).countP isClearTimerB ≤ 1 := by
  refine runBridge_countP_le_one cfg (fun s => !s.timerPending) isClearTimerB ?_ ?_ ?_ ?_
  · intro s e h
    have ht : s.timerPending = false := by simpa using h
    rcases stepActs_clearTimer_cases cfg s e with ⟨hz, _⟩ | ⟨hle, _⟩
    · exact hz
    · rw [ht] at hle
      have hz : (if (false = true) then 1 else 0) = 0 := rfl
      rw [hz] at hle
      omega
  · intro s e h
    have ht : s.timerPending = false := by simpa using h
    show (!(step cfg s e).1.timerPending) = true
    rcases stepActs_clearTimer_cases cfg s e with ⟨_, hp⟩ | ⟨_, hp⟩ <;>
      simp [hp, ht]
  · intro s e
    rcases stepActs_clearTimer_cases cfg s e with ⟨hz, _⟩ | ⟨hle, _⟩
    · omega
    · split_ifs at hle <;> omega
  · intro s e hc
    show (!(step cfg s e).1.timerPending) = true
    rcases stepActs_clearTimer_cases cfg s e with ⟨hz, _⟩ | ⟨_, hp⟩
    · omega
    · simp [hp]

/-- Claim C2: on open, the handshake `user:ticket\n` is the only message the
open handler sends, every send occurring before the stdin listener is
attached is the handshake, the stdin listener is attached by the handler,
and before open a stdin chunk produces nothing (no listener is attached). -/
theorem claim_C2 (cfg : BridgeConfig) :
    (stepActs cfg initState Event.wsOpen).filter isWsSendB
      = [Action.wsSend (authString cfg.user cfg.ticket)] ∧
    ((stepActs cfg initState Event.wsOpen).takeWhile (fun a => !isAttachStdinB a)).filter
        isWsSendB = [Action.wsSend (authString cfg.user cfg.ticket)] ∧
    Action.attachStdinListener ∈ stepActs cfg initState Event.wsOpen ∧
    ∀ data : List Nat, step cfg initState (Event.stdinData data) = (initState, []) := by
  refine ⟨?_, ?_, ?_, ?_⟩
  · cases h : cfg.isTTY <;>
      simp [stepActs, step, openActs, initState, h, isWsSendB, List.filter]
  · cases h : cfg.isTTY <;>
      simp [stepActs, step, openActs, initState, h, isWsSendB, isAttachStdinB,
        List.filter, List.takeWhile]
  · cases h : cfg.isTTY <;>
      simp [stepActs, step, openActs, initState, h]
  · intro data
    rw [step]
    split
    · simp [initState] at *
    · rfl

/-- Claim C7 (counterexample): with a concrete configuration, the open
handler sends no resize frame at all (every resize frame starts with the
code unit of the digit one, and no message sent by the open handler does),
refuting the claim that a resize frame is sent immediately upon open. -/
theorem claim_C7_counterexample :
    (stepActs cfgEx initState Event.wsOpen).countP sendsResizeFrame = 0 ∧
    sendsResizeFrame (Action.wsSend (resizeFrame 80 24)) = true := by
  decide

/-- Claim C7 (amended): the open handler sends no resize frame immediately
(its only send is the handshake); instead it schedules a settle timer of
300ms (within the 500ms bound), whose callback sends exactly one resize
frame with the dimensions current at fire time if the socket is still
OPEN. -/
theorem claim_C7_amended (cfg : BridgeConfig) (cols rows : Nat) :
    (stepActs cfg initState Event.wsOpen).filter isWsSendB
      = [Action.wsSend (authString cfg.user cfg.ticket)] ∧
    Action.setTimer settleDelayMs ∈ stepActs cfg initState Event.wsOpen ∧
    settleDelayMs = 300 ∧ settleDelayMs < 500 ∧
    settleHandler ReadyState.OPEN cols rows = [Action.wsSend (resizeFrame cols rows)] ∧
    resizeHandler ReadyState.OPEN cols rows = [Action.wsSend (resizeFrame cols rows)] := by
  refine ⟨?_, ?_, rfl, by decide, ?_, ?_⟩
  · cases h : cfg.isTTY <;>
      simp [stepActs, step, openActs, initState, h, isWsSendB, List.filter]
  · cases h : cfg.isTTY <;>
      simp [stepActs, step, openActs, initState, h]
  · rw [settleHandler, if_pos rfl]
  · rw [resizeHandler, if_pos rfl]

/-- Claim C6: if the socket has not opened when the 10-second connect timer
fires, the call rejects with the timeout message as its final action, no
successful resolution happens, cooked mode is restored on a TTY before the
rejection, the cleanup guard is set, and both the timer bound and the
handshake timeout used to abort the socket are 10000 ms. -/
theorem claim_C6 (cfg : BridgeConfig) (s : BridgeState)
    (hconn : s.isConnected = false) (hclean : s.cleanedUp = false)
    (htty : cfg.isTTY = true) :
    (stepActs cfg s Event.connectTimerFired).getLast? = some (Action.rejectP timeoutMessage) ∧
    timeoutMessage = asciiStr "Connection timed out after 10 seconds." ∧
    Action.setRawMode false ∈ stepActs cfg s Event.connectTimerFired ∧
    Action.resolveP ∉ stepActs cfg s Event.connectTimerFired ∧
    (step cfg s Event.connectTimerFired).1.cleanedUp = true ∧
    initState.timerPending = true ∧
    connectTimeoutMs = 10000 ∧ wsOptions.handshakeTimeout = 10000 := by
  have hacts : stepActs cfg s Event.connectTimerFired
      = cleanupActs cfg s ++ ((if cfg.hasOnError then [Action.onErrorCb timeoutMessage] else [])
        ++ [Action.rejectP timeoutMessage]) := by
    rw [stepActs, step, if_neg (by rw [hconn]; exact Bool.false_ne_true), handleErrorActs,
      List.append_assoc]
  refine ⟨?_, rfl, ?_, ?_, ?_, rfl, rfl, rfl⟩
  · rw [hacts]
    cases h : cfg.hasOnError <;> simp [h]
  · rw [hacts, cleanupActs, if_neg (by rw [hclean]; exact Bool.false_ne_true), htty]
    simp
  · rw [hacts]
    rw [cleanupActs]
    split_ifs <;> simp_all
  · rw [step, if_neg (by rw [hconn]; exact Bool.false_ne_true)]
    rfl

theorem claim_C6_witness :
    initState.isConnected = false ∧ initState.cleanedUp = false ∧ cfgEx.isTTY = true ∧
    ((stepActs cfgEx initState Event.connectTimerFired).getLast?
        = some (Action.rejectP timeoutMessage) ∧
      timeoutMessage = asciiStr "Connection timed out after 10 seconds." ∧
      Action.setRawMode false ∈ stepActs cfgEx initState Event.connectTimerFired ∧
      Action.resolveP ∉ stepActs cfgEx initState Event.connectTimerFired ∧
      (step cfgEx initState Event.connectTimerFired).1.cleanedUp = true ∧
      initState.timerPending = true ∧
      connectTimeoutMs = 10000 ∧ wsOptions.handshakeTimeout = 10000) :=
  ⟨rfl, rfl, rfl, claim_C6 cfgEx initState rfl rfl rfl⟩

/-- Claim C8: a socket close before open ever happened rejects the call,
with the close code reported inside the failure message and no successful
resolution; a close after open resolves the call normally with no
rejection. -/
theorem claim_C8 (cfg : BridgeConfig) (s : BridgeState) (code : Nat) :
    (s.isConnected = false →
      (stepActs cfg s (Event.wsClosed code)).getLast?
          = some (Action.rejectP (closeFailMsg code)) ∧
      natToDecimal code <:+: closeFailMsg code ∧
      Action.resolveP ∉ stepActs cfg s (Event.wsClosed code)) ∧
    (s.isConnected = true →
      (stepActs cfg s (Event.wsClosed code)).getLast? = some Action.resolveP ∧
      ∀ m, Action.rejectP m ∉ stepActs cfg s (Event.wsClosed code)) := by
  constructor
  · intro hconn
    have hacts : stepActs cfg s (Event.wsClosed code)
        = cleanupActs cfg s
          ++ ((if cfg.hasOnError then [Action.onErrorCb (closeFailMsg code)] else [])
            ++ [Action.rejectP (closeFailMsg code)]) := by
      rw [stepActs, step, if_neg (by rw [hconn]; exact Bool.false_ne_true), handleErrorActs,
        List.append_assoc]
    refine ⟨?_, ?_, ?_⟩
    · rw [hacts]
      cases h : cfg.hasOnError <;> simp [h]
    · exact ⟨asciiStr "WebSocket failed (code: ", asciiStr ")", by
        rw [closeFailMsg, List.append_assoc]⟩
    · rw [hacts, cleanupActs]
      split_ifs <;> simp_all
  · intro hconn
    have hacts : stepActs cfg s (Event.wsClosed code)
        = cleanupActs cfg s ++ [Action.resolveP] := by
      rw [stepActs, step, if_pos hconn]
    constructor
    · rw [hacts]
      simp
    · intro m
      rw [hacts, cleanupActs]
      split_ifs <;> simp_all

theorem claim_C8_witness :
    initState.isConnected = false ∧
    ((stepActs cfgEx initState (Event.wsClosed 1006)).getLast?
        = some (Action.rejectP (closeFailMsg 1006)) ∧
      natToDecimal 1006 <:+: closeFailMsg 1006 ∧
      Action.resolveP ∉ stepActs cfgEx initState (Event.wsClosed 1006)) ∧
    (step cfgEx initState Event.wsOpen).1.isConnected = true ∧
    ((stepActs cfgEx (step cfgEx initState Event.wsOpen).1 (Event.wsClosed 1000)).getLast?
        = some Action.resolveP ∧
      ∀ m, Action.rejectP m
        ∉ stepActs cfgEx (step cfgEx initState Event.wsOpen).1 (Event.wsClosed 1000)) :=
  ⟨rfl, (claim_C8 cfgEx initState 1006).1 rfl, rfl,
    (claim_C8 cfgEx (step cfgEx initState Event.wsOpen).1 1000).2 rfl⟩

lemma matchTls_of_selfsigned (raw : JSString)
    (h : jsIncludes raw (asciiStr "self signed certificate") = true) :
    matchTls (jsToLower raw) = true := by
  have hinf : asciiStr "self signed certificate" <:+: raw := by
    rw [jsIncludes] at h
    exact of_decide_eq_true h
  have hmap : (asciiStr "self signed certificate").map lowerUnit <:+: jsToLower raw :=
    List.IsInfix.map lowerUnit hinf
  have hself : asciiStr "self signed" <:+: (asciiStr "self signed certificate").map lowerUnit := by
    decide
  have : asciiStr "self signed" <:+: jsToLower raw := hself.trans hmap
  rw [matchTls]
  have hincl : jsIncludes (jsToLower raw) (asciiStr "self signed") = true := by
    rw [jsIncludes]
    exact decide_eq_true this
  rw [hincl]
  simp

/-- Claim C9: the error classification is a pure function of the raw error
text and tests its patterns in priority order: any TLS/certificate pattern
in the lowercased text yields the TLS-certificate message, else a
refused/unreachable pattern yields the connection-refused message, else the
original message is passed through; in particular a raw text containing
"self signed certificate" yields the TLS-certificate message, which
mentions the configuration option to skip TLS verification. -/
theorem claim_C9 (raw : JSString) :
    (matchTls (jsToLower raw) = true → classifyMessage raw = tlsErrorMessage) ∧
    (matchTls (jsToLower raw) = false → matchRefused (jsToLower raw) = true →
      classifyMessage raw = connRefusedMessage) ∧
    (matchTls (jsToLower raw) = false → matchRefused (jsToLower raw) = false →
      classifyMessage raw = asciiStr "WebSocket error: " ++ raw) ∧
    (jsIncludes raw (asciiStr "self signed certificate") = true →
      classifyMessage raw = tlsErrorMessage) ∧
    jsIncludes tlsErrorMessage (asciiStr "skip TLS verification") = true := by
  refine ⟨?_, ?_, ?_, ?_, by decide⟩
  · intro h
    rw [classifyMessage]
    simp only [h, if_true]
  · intro h1 h2
    rw [classifyMessage]
    simp only [h1, h2, Bool.false_eq_true, if_false, if_true]
  · intro h1 h2
    rw [classifyMessage]
    simp only [h1, h2, Bool.false_eq_true, if_false]
  · intro h
    have := matchTls_of_selfsigned raw h
    rw [classifyMessage]
    simp only [this, if_true]

theorem claim_C9_witness :
    jsIncludes (asciiStr "self signed certificate in chain")
        (asciiStr "self signed certificate") = true ∧
    classifyMessage (asciiStr "self signed certificate in chain") = tlsErrorMessage ∧
    jsIncludes tlsErrorMessage (asciiStr "skip TLS verification") = true :=
  ⟨by decide, (claim_C9 (asciiStr "self signed certificate in chain")).2.2.2.1 (by decide),
    (claim_C9 (asciiStr "x")).2.2.2.2⟩

/-- Claim C3 (counterexample): a session that ends through the connect
timeout runs cleanup (the title reset happens exactly once) but never
removes the stdin listener (zero removals, because no listener was attached
before open), refuting the claim that every cleanup side effect occurs
exactly once on every exit path. -/
theorem claim_C3_counterexample :
    (runBridge cfgEx initState [Event.connectTimerFired]).1.cleanedUp = true ∧
    ((runBridge cfgEx initState [Event.connectTimerFired]).2).countP isTitleResetB = 1 ∧
    ((runBridge cfgEx initState [Event.connectTimerFired]).2).countP isRemoveStdinB = 0 := by
  decide

/-- Claim C3 (amended): over any event sequence whatsoever, each cleanup
side effect — timer cancellation, stdin listener removal, resize listener
removal, raw-mode restore, title/cursor reset — occurs at most once; and on
the five exit paths of a TTY session the effects occur exactly once each,
except that the two listener removals occur zero times on the paths that
end before open (connect timeout, thrown exception), where no listener was
ever attached. -/
theorem claim_C3_amended :
    (∀ (cfg : BridgeConfig) (es : List Event),
      ((runBridge cfg initState es).2).countP isClearTimerB ≤ 1 ∧
      ((runBridge cfg initState es).2).countP isRemoveStdinB ≤ 1 ∧
      ((runBridge cfg initState es).2).countP isRemoveResizeB ≤ 1 ∧
      ((runBridge cfg initState es).2).countP isRawRestoreB ≤ 1 ∧
      ((runBridge cfg initState es).2).countP isTitleResetB ≤ 1) ∧
    (let counts := fun es : List Event =>
      (((runBridge cfgEx initState es).2).countP isClearTimerB,
        ((runBridge cfgEx initState es).2).countP isRemoveStdinB,
        ((runBridge cfgEx initState es).2).countP isRemoveResizeB,
        ((runBridge cfgEx initState es).2).countP isRawRestoreB,
        ((runBridge cfgEx initState es).2).countP isTitleResetB)
    counts [Event.wsOpen, Event.wsClosed 1000] = (1, 1, 1, 1, 1) ∧
    counts [Event.wsOpen, Event.wsError (asciiStr "read ECONNRESET"), Event.wsClosed 1006]
      = (1, 1, 1, 1, 1) ∧
    counts [Event.wsOpen, Event.stdinData [0x1C], Event.wsClosed 1000] = (1, 1, 1, 1, 1) ∧
    counts [Event.connectTimerFired] = (1, 0, 0, 1, 1) ∧
    counts [Event.thrown (asciiStr "boom")] = (1, 0, 0, 1, 1)) := by
  constructor
  · intro cfg es
    exact ⟨clearTimer_at_most_once cfg es initState,
      removeStdin_at_most_once cfg es initState,
      removeResize_at_most_once cfg es initState,
      rawRestore_at_most_once cfg es initState,
      titleReset_at_most_once cfg es initState⟩
  · decide

/-- Claim C4 (counterexample): the fetch issued by `authenticateWithPassword`
has `tls.rejectUnauthorized` hardcoded to `false`, while the spec-modelled
flag-controlled behaviour demands `true` under the default (verify-on)
configuration; certificate validation is not controlled by the flag. -/
theorem claim_C4_counterexample :
    (authenticateRequest (asciiStr "https://host:8006") (asciiStr "root@pam")
        (asciiStr "pw")).tlsRejectUnauthorized = false ∧
    spec_rejectUnauthorized spec_skipTlsVerifyDefault = true := by
  decide

/-- Claim C4 (amended): `authenticateWithPassword` issues its form-encoded
POST of username and password to the `/access/ticket` endpoint, but with
TLS certificate verification unconditionally disabled: the request carries
`rejectUnauthorized = false` for every base URL and every credential, with
no dependence on the `skipTlsVerify` configuration flag (whose default is
off). -/
theorem claim_C4_amended (baseUrl user password : JSString) :
    (authenticateRequest baseUrl user password).url = baseUrl ++ accessTicketPath ∧
    (authenticateRequest baseUrl user password).httpMethod = asciiStr "POST" ∧
    (authenticateRequest baseUrl user password).formBody
      = [(asciiStr "username", user), (asciiStr "password", password)] ∧
    (authenticateRequest baseUrl user password).tlsRejectUnauthorized = false ∧
    spec_skipTlsVerifyDefault = false :=
  ⟨rfl, rfl, rfl, rfl, rfl⟩

end Proxmux
